import Mathlib

/-!
Shallow embedding of `sab_monitarr` (`main.go`): configuration loading with
environment overlay and validation, client-IP derivation, the upstream status
fetch, the `/status` handler, and the log-redaction helpers.  Go strings are
modelled as Lean `String` (with list-of-char reasoning where Go's `strings`
package functions are re-implemented); Go `int` is modelled as `Int` and
`strconv.Atoi`'s 64-bit range check is made explicit.
-/

set_option maxRecDepth 4000

/-- `Config` from `main.go`: application configuration (field names as in the
Go struct). `RefreshInterval` is in seconds. -/
structure Config where
  SabnzbdURL : String
  SabnzbdAPIKey : String
  RefreshInterval : Int
  Debug : Bool
  LogClientInfo : Bool
deriving DecidableEq, Repr

/-- Environment variable name constant `EnvSabnzbdURL` from `main.go`. -/
def EnvSabnzbdURL : String := "SABMON_SABNZBD_URL"

/-- Environment variable name constant `EnvSabnzbdAPIKey` from `main.go`. -/
def EnvSabnzbdAPIKey : String := "SABMON_SABNZBD_API_KEY"

/-- The process environment restricted to the five variables `LoadConfig`
reads via `os.Getenv`; as in Go, an unset variable is the empty string. -/
structure Env where
  SABMON_SABNZBD_URL : String
  SABMON_SABNZBD_API_KEY : String
  SABMON_REFRESH_INTERVAL : String
  SABMON_DEBUG : String
  SABMON_LOG_CLIENT_INFO : String
deriving DecidableEq, Repr

/-- One decimal digit, as consumed by `strconv.Atoi`. -/
def digitVal (c : Char) : Option Nat :=
  if '0' ≤ c ∧ c ≤ '9' then some (c.toNat - '0'.toNat) else none

/-- Accumulator loop of the decimal parse in `strconv.Atoi`. -/
def parseNatAux : List Char → Nat → Option Nat
  | [], acc => some acc
  | c :: rest, acc =>
    match digitVal c with
    | some d => parseNatAux rest (acc * 10 + d)
    | none => none

/-- A non-empty all-digit run parsed as a natural number (base 10). -/
def parseNatDigits : List Char → Option Nat
  | [] => none
  | cs => parseNatAux cs 0

/-- `strconv.Atoi` (base 10, 64-bit `int`): optional sign, at least one digit,
`none` on any other character and on 64-bit overflow (Go reports `ErrRange`,
which `LoadConfig` treats the same as a syntax error). -/
def goAtoi (s : String) : Option Int :=
  match s.data with
  | [] => none
  | '+' :: rest =>
    (parseNatDigits rest).bind fun n =>
      if n ≤ 2 ^ 63 - 1 then some (n : Int) else none
  | '-' :: rest =>
    (parseNatDigits rest).bind fun n =>
      if n ≤ 2 ^ 63 then some (-(n : Int)) else none
  | cs =>
    (parseNatDigits cs).bind fun n =>
      if n ≤ 2 ^ 63 - 1 then some (n : Int) else none

deriving instance DecidableEq for Except

/-- `strings.ToLower`, modelled character-wise (the values compared against,
`"1"` and `"true"`, are ASCII, where this agrees with Go's Unicode folding). -/
def goToLower (s : String) : String :=
  String.mk (s.data.map Char.toLower)

/-- The boolean convention of `LoadConfig` for `SABMON_DEBUG` and
`SABMON_LOG_CLIENT_INFO`: `envVal == "1" || strings.ToLower(envVal) == "true"`. -/
def parseEnvBool (v : String) : Bool :=
  v == "1" || goToLower v == "true"

/-- The `SABMON_SABNZBD_URL` overlay step of `LoadConfig`. -/
def overlayURL (config : Config) (env : Env) : Config :=
  if env.SABMON_SABNZBD_URL = "" then config
  else { config with SabnzbdURL := env.SABMON_SABNZBD_URL }

/-- The `SABMON_SABNZBD_API_KEY` overlay step of `LoadConfig`. -/
def overlayAPIKey (config : Config) (env : Env) : Config :=
  if env.SABMON_SABNZBD_API_KEY = "" then config
  else { config with SabnzbdAPIKey := env.SABMON_SABNZBD_API_KEY }

/-- The `SABMON_REFRESH_INTERVAL` overlay step of `LoadConfig`: applied only
when the value is non-empty and `strconv.Atoi` succeeds; on parse failure only
a warning is logged and the current value is kept. -/
def overlayRefresh (config : Config) (env : Env) : Config :=
  if env.SABMON_REFRESH_INTERVAL = "" then config
  else
    match goAtoi env.SABMON_REFRESH_INTERVAL with
    | some val => { config with RefreshInterval := val }
    | none => config

/-- The `SABMON_DEBUG` overlay step of `LoadConfig`. -/
def overlayDebug (config : Config) (env : Env) : Config :=
  if env.SABMON_DEBUG = "" then config
  else { config with Debug := parseEnvBool env.SABMON_DEBUG }

/-- The `SABMON_LOG_CLIENT_INFO` overlay step of `LoadConfig`. -/
def overlayLogClientInfo (config : Config) (env : Env) : Config :=
  if env.SABMON_LOG_CLIENT_INFO = "" then config
  else { config with LogClientInfo := parseEnvBool env.SABMON_LOG_CLIENT_INFO }

/-- The environment-overlay block of `LoadConfig` (lines 69-88 of `main.go`),
applied in source order. -/
def applyEnv (config : Config) (env : Env) : Config :=
  overlayLogClientInfo
    (overlayDebug (overlayRefresh (overlayAPIKey (overlayURL config env) env) env) env) env

/-- `validateConfig` from `main.go`: URL and API key are required; a refresh
interval ≤ 0 is replaced by 5 (modelled as returning the updated config rather
than mutating through the pointer). -/
def validateConfig (config : Config) : Except String Config :=
  if config.SabnzbdURL = "" then
    Except.error ("sabnzbd URL is required (set via config or " ++ EnvSabnzbdURL ++ ")")
  else if config.SabnzbdAPIKey = "" then
    Except.error ("sabnzbd API key is required (set via config or " ++ EnvSabnzbdAPIKey ++ ")")
  else if config.RefreshInterval ≤ 0 then
    Except.ok { config with RefreshInterval := 5 }
  else
    Except.ok config

/-- The Go zero value of `Config`, the starting point when `config.json`
cannot be opened or parsed. -/
def defaultConfig : Config :=
  { SabnzbdURL := "", SabnzbdAPIKey := "", RefreshInterval := 0
    Debug := false, LogClientInfo := false }

/-- `LoadConfig` from `main.go`, with the file-system interaction made
explicit: `fileConfig` is `some c` when `config.json` was opened and decoded
to `c`, and `none` when opening or parsing failed (which is logged but never
by itself fatal).  The env overlay then runs, followed by validation; the only
error exit is `validateConfig`. -/
def LoadConfig (fileConfig : Option Config) (env : Env) : Except String Config :=
  validateConfig (applyEnv (fileConfig.getD defaultConfig) env)

-- Normal forms for the overlay steps.

theorem overlayURL_eq (config : Config) (env : Env) :
    overlayURL config env =
      { config with
        SabnzbdURL :=
          if env.SABMON_SABNZBD_URL = "" then config.SabnzbdURL
          else env.SABMON_SABNZBD_URL } := by
  unfold overlayURL
  split <;> simp_all

theorem overlayAPIKey_eq (config : Config) (env : Env) :
    overlayAPIKey config env =
      { config with
        SabnzbdAPIKey :=
          if env.SABMON_SABNZBD_API_KEY = "" then config.SabnzbdAPIKey
          else env.SABMON_SABNZBD_API_KEY } := by
  unfold overlayAPIKey
  split <;> simp_all

theorem overlayRefresh_eq (config : Config) (env : Env) :
    overlayRefresh config env =
      { config with
        RefreshInterval :=
          if env.SABMON_REFRESH_INTERVAL = "" then config.RefreshInterval
          else
            match goAtoi env.SABMON_REFRESH_INTERVAL with
            | some val => val
            | none => config.RefreshInterval } := by
  unfold overlayRefresh
  split
  · simp_all
  · split <;> simp_all

theorem overlayDebug_eq (config : Config) (env : Env) :
    overlayDebug config env =
      { config with
        Debug :=
          if env.SABMON_DEBUG = "" then config.Debug
          else parseEnvBool env.SABMON_DEBUG } := by
  unfold overlayDebug
  split <;> simp_all

theorem overlayLogClientInfo_eq (config : Config) (env : Env) :
    overlayLogClientInfo config env =
      { config with
        LogClientInfo :=
          if env.SABMON_LOG_CLIENT_INFO = "" then config.LogClientInfo
          else parseEnvBool env.SABMON_LOG_CLIENT_INFO } := by
  unfold overlayLogClientInfo
  split <;> simp_all

/-- The overlay block written as one record: each field is its env value when
that variable is non-empty (and, for the refresh interval, parses), else the
file value. -/
theorem applyEnv_eq (config : Config) (env : Env) :
    applyEnv config env =
      { SabnzbdURL :=
          if env.SABMON_SABNZBD_URL = "" then config.SabnzbdURL
          else env.SABMON_SABNZBD_URL
        SabnzbdAPIKey :=
          if env.SABMON_SABNZBD_API_KEY = "" then config.SabnzbdAPIKey
          else env.SABMON_SABNZBD_API_KEY
        RefreshInterval :=
          if env.SABMON_REFRESH_INTERVAL = "" then config.RefreshInterval
          else
            match goAtoi env.SABMON_REFRESH_INTERVAL with
            | some val => val
            | none => config.RefreshInterval
        Debug :=
          if env.SABMON_DEBUG = "" then config.Debug
          else parseEnvBool env.SABMON_DEBUG
        LogClientInfo :=
          if env.SABMON_LOG_CLIENT_INFO = "" then config.LogClientInfo
          else parseEnvBool env.SABMON_LOG_CLIENT_INFO } := by
  unfold applyEnv
  rw [overlayURL_eq, overlayAPIKey_eq, overlayRefresh_eq, overlayDebug_eq,
    overlayLogClientInfo_eq]

/-- `validateConfig` succeeds exactly when both required fields are non-empty. -/
theorem validateConfig_isOk_iff (config : Config) :
    (validateConfig config).isOk = true ↔
      ¬(config.SabnzbdURL = "" ∨ config.SabnzbdAPIKey = "") := by
  unfold validateConfig
  split
  · simp_all [Except.isOk, Except.toBool]
  · split
    · simp_all [Except.isOk, Except.toBool]
    · split <;> simp_all [Except.isOk, Except.toBool]

/-- Claim C3: `LoadConfig` returns an error if and only if, after the file
read and the environment overlay, the upstream URL or the API key is empty;
in particular a missing or unparsable `config.json` (`fileConfig = none`)
never causes an error when both required fields come from the environment. -/
theorem LoadConfig_error_iff (fileConfig : Option Config) (env : Env) :
    ((LoadConfig fileConfig env).isOk = false ↔
      ((applyEnv (fileConfig.getD defaultConfig) env).SabnzbdURL = "" ∨
        (applyEnv (fileConfig.getD defaultConfig) env).SabnzbdAPIKey = "")) ∧
    (env.SABMON_SABNZBD_URL ≠ "" → env.SABMON_SABNZBD_API_KEY ≠ "" →
      (LoadConfig none env).isOk = true) := by
  constructor
  · rw [LoadConfig, ← Bool.not_eq_true, validateConfig_isOk_iff]
    tauto
  · intro hu hk
    rw [LoadConfig, validateConfig_isOk_iff, applyEnv_eq]
    simp [hu, hk]

/-- Claim C3 witness: env supplies URL and key, the file is absent, and
loading succeeds. -/
theorem LoadConfig_error_iff_witness :
    (LoadConfig none ⟨"http://h", "k", "", "", ""⟩).isOk = true :=
  (LoadConfig_error_iff none ⟨"http://h", "k", "", "", ""⟩).2 (by decide) (by decide)

/-- Claim C4: with both required fields present, a refresh interval ≤ 0 is
not an error — `validateConfig` succeeds and replaces it with 5 — while a
positive interval is left unchanged. -/
theorem validateConfig_refresh_default (config : Config)
    (hu : config.SabnzbdURL ≠ "") (hk : config.SabnzbdAPIKey ≠ "") :
    (config.RefreshInterval ≤ 0 →
      validateConfig config = Except.ok { config with RefreshInterval := 5 }) ∧
    (0 < config.RefreshInterval → validateConfig config = Except.ok config) := by
  unfold validateConfig
  constructor
  · intro h
    simp [hu, hk, h]
  · intro h
    simp [hu, hk, show ¬(config.RefreshInterval ≤ 0) by omega]

/-- Claim C4 witness: interval 0 is coerced to 5, interval 7 is kept. -/
theorem validateConfig_refresh_default_witness :
    validateConfig ⟨"http://h", "k", 0, false, false⟩ =
      Except.ok ⟨"http://h", "k", 5, false, false⟩ ∧
    validateConfig ⟨"http://h", "k", 7, false, false⟩ =
      Except.ok ⟨"http://h", "k", 7, false, false⟩ :=
  ⟨(validateConfig_refresh_default ⟨"http://h", "k", 0, false, false⟩
      (by decide) (by decide)).1 (by decide),
   (validateConfig_refresh_default ⟨"http://h", "k", 7, false, false⟩
      (by decide) (by decide)).2 (by decide)⟩

/-- Claim C9: a non-empty `SABMON_REFRESH_INTERVAL` that does not parse as an
integer leaves the refresh interval from the file (or the zero default)
unchanged, and does not make `LoadConfig` fail (it fails only if URL or key
end up empty). -/
theorem refresh_env_invalid_kept (fileConfig : Option Config) (env : Env)
    (hset : env.SABMON_REFRESH_INTERVAL ≠ "")
    (hfail : goAtoi env.SABMON_REFRESH_INTERVAL = none) :
    (applyEnv (fileConfig.getD defaultConfig) env).RefreshInterval =
      (fileConfig.getD defaultConfig).RefreshInterval ∧
    ((applyEnv (fileConfig.getD defaultConfig) env).SabnzbdURL ≠ "" →
      (applyEnv (fileConfig.getD defaultConfig) env).SabnzbdAPIKey ≠ "" →
      (LoadConfig fileConfig env).isOk = true) := by
  constructor
  · rw [applyEnv_eq]
    simp [hset, hfail]
  · intro hu hk
    rw [LoadConfig, validateConfig_isOk_iff]
    tauto

/-- Claim C9 witness: `SABMON_REFRESH_INTERVAL=abc` keeps the file value 7 and
loading succeeds. -/
theorem refresh_env_invalid_kept_witness :
    (applyEnv ((some (Config.mk "http://h" "k" 7 false false)).getD defaultConfig)
        ⟨"", "", "abc", "", ""⟩).RefreshInterval = 7 ∧
    (LoadConfig (some (Config.mk "http://h" "k" 7 false false))
        ⟨"", "", "abc", "", ""⟩).isOk = true :=
  ⟨(refresh_env_invalid_kept (some (Config.mk "http://h" "k" 7 false false))
      ⟨"", "", "abc", "", ""⟩ (by decide) (by decide)).1,
   (refresh_env_invalid_kept (some (Config.mk "http://h" "k" 7 false false))
      ⟨"", "", "abc", "", ""⟩ (by decide) (by decide)).2 (by decide) (by decide)⟩

/-- Claim C10: a non-empty boolean-like environment value other than `"1"` or
case-insensitive `"true"` forces the corresponding flag to `false`, even when
the file value was `true`. -/
theorem env_bool_overrides_false (config : Config) (env : Env) :
    (env.SABMON_DEBUG ≠ "" → env.SABMON_DEBUG ≠ "1" →
      goToLower env.SABMON_DEBUG ≠ "true" → (applyEnv config env).Debug = false) ∧
    (env.SABMON_LOG_CLIENT_INFO ≠ "" → env.SABMON_LOG_CLIENT_INFO ≠ "1" →
      goToLower env.SABMON_LOG_CLIENT_INFO ≠ "true" →
      (applyEnv config env).LogClientInfo = false) := by
  rw [applyEnv_eq]
  constructor
  · intro h1 h2 h3
    simp [h1, parseEnvBool, h2, h3]
  · intro h1 h2 h3
    simp [h1, parseEnvBool, h2, h3]

/-- Claim C10 witness: `SABMON_DEBUG=yes` and `SABMON_LOG_CLIENT_INFO=on`
override file values of `true` with `false`. -/
theorem env_bool_overrides_false_witness :
    (applyEnv ⟨"u", "k", 5, true, true⟩ ⟨"", "", "", "yes", "on"⟩).Debug = false ∧
    (applyEnv ⟨"u", "k", 5, true, true⟩ ⟨"", "", "", "yes", "on"⟩).LogClientInfo = false :=
  ⟨(env_bool_overrides_false ⟨"u", "k", 5, true, true⟩ ⟨"", "", "", "yes", "on"⟩).1
      (by decide) (by decide) (by decide),
   (env_bool_overrides_false ⟨"u", "k", 5, true, true⟩ ⟨"", "", "", "yes", "on"⟩).2
      (by decide) (by decide) (by decide)⟩

/-- Claim C2 counterexample: with all five variables non-empty and
`SABMON_REFRESH_INTERVAL=0` (which parses to 0), the returned configuration
has refresh interval 5 — validation coerces it — not the env-derived value 0. -/
theorem env_precedence_cex :
    LoadConfig (some ⟨"http://file", "filekey", 7, false, false⟩)
        ⟨"http://env", "envkey", "0", "1", "1"⟩ =
      Except.ok ⟨"http://env", "envkey", 5, true, true⟩ ∧
    goAtoi "0" = some 0 ∧ ((5 : Int) = 0 → False) := by
  refine ⟨by decide, by decide, by decide⟩

/-- Claim C2 (amended): with all five variables non-empty and the refresh
value parsing to a positive integer, every field of the `LoadConfig` result
equals the env-derived value regardless of the file contents. -/
theorem env_precedence (fileConfig : Option Config) (env : Env) (n : Int)
    (hu : env.SABMON_SABNZBD_URL ≠ "") (hk : env.SABMON_SABNZBD_API_KEY ≠ "")
    (hr : env.SABMON_REFRESH_INTERVAL ≠ "") (hd : env.SABMON_DEBUG ≠ "")
    (hl : env.SABMON_LOG_CLIENT_INFO ≠ "")
    (hn : goAtoi env.SABMON_REFRESH_INTERVAL = some n) (hpos : 0 < n) :
    LoadConfig fileConfig env =
      Except.ok
        ⟨env.SABMON_SABNZBD_URL, env.SABMON_SABNZBD_API_KEY, n,
          parseEnvBool env.SABMON_DEBUG, parseEnvBool env.SABMON_LOG_CLIENT_INFO⟩ := by
  rw [LoadConfig, applyEnv_eq]
  unfold validateConfig
  simp [hu, hk, hr, hd, hl, hn, show ¬(n ≤ 0) by omega]

/-- Claim C2 witness: env values win over a conflicting file. -/
theorem env_precedence_witness :
    LoadConfig (some ⟨"http://file", "filekey", 7, true, true⟩)
        ⟨"http://env", "envkey", "10", "TRUE", "0"⟩ =
      Except.ok ⟨"http://env", "envkey", 10, true, false⟩ :=
  (env_precedence (some ⟨"http://file", "filekey", 7, true, true⟩)
      ⟨"http://env", "envkey", "10", "TRUE", "0"⟩ 10 (by decide) (by decide)
      (by decide) (by decide) (by decide) (by decide) (by decide)).trans (by decide)

/-- `strings.Split` with a one-character separator (the only uses in
`main.go`: `","` and `":"`), on the character list of the string.  As in Go,
the result is never empty and splitting the empty string gives `[[]]`. -/
def splitChar (sep : Char) : List Char → List (List Char)
  | [] => [[]]
  | c :: rest =>
    if c = sep then [] :: splitChar sep rest
    else
      match splitChar sep rest with
      | [] => [[c]]
      | h :: t => (c :: h) :: t

/-- `strings.Split(s, sep)` for a one-character `sep`. -/
def goSplit (s : String) (sep : Char) : List String :=
  (splitChar sep s.data).map String.mk

/-- An inbound HTTP request as `getClientIP` sees it: the value of the
`X-Forwarded-For` header (empty when absent, as `Header.Get` returns) and
`r.RemoteAddr`. -/
structure HttpRequest where
  xForwardedFor : String
  remoteAddr : String
deriving DecidableEq, Repr

/-- `getClientIP` from `main.go`: first element of the comma-split forwarded
header when non-empty, else the remote address cut at its first colon.
`strings.Split` never returns an empty slice, so indexing `[0]` is modelled
by `headD ""`. -/
def getClientIP (r : HttpRequest) : String :=
  if r.xForwardedFor ≠ "" then
    (goSplit r.xForwardedFor ',').headD ""
  else
    if ':' ∈ r.remoteAddr.data then (goSplit r.remoteAddr ':').headD ""
    else r.remoteAddr

theorem splitChar_of_not_mem (sep : Char) (l : List Char) (h : sep ∉ l) :
    splitChar sep l = [l] := by
  induction l with
  | nil => rfl
  | cons c rest ih =>
    have hc : ¬(c = sep) := fun e => h (e ▸ List.mem_cons_self c rest)
    have hr : sep ∉ rest := fun hm => h (List.mem_cons_of_mem c hm)
    rw [splitChar, if_neg hc, ih hr]

theorem splitChar_append (sep : Char) (l₁ l₂ : List Char) (h : sep ∉ l₁) :
    splitChar sep (l₁ ++ sep :: l₂) = l₁ :: splitChar sep l₂ := by
  induction l₁ with
  | nil => simp [splitChar]
  | cons c rest ih =>
    have hc : ¬(c = sep) := fun e => h (e ▸ List.mem_cons_self c rest)
    have hr : sep ∉ rest := fun hm => h (List.mem_cons_of_mem c hm)
    rw [List.cons_append, splitChar, if_neg hc, ih hr]

theorem data_append_sep (s t : String) (sep : Char) :
    (s ++ String.mk [sep] ++ t).data = s.data ++ sep :: t.data := by
  simp [String.data_append]

/-- Claim C7: with a non-empty `X-Forwarded-For` header the derived client IP
is the first comma-separated entry; otherwise it is the remote address with
everything from the first colon on stripped (the address unchanged when it
has no colon). -/
theorem getClientIP_spec (entry rest ip port ra : String) :
    ((entry ≠ "" → ',' ∉ entry.data →
      getClientIP ⟨entry ++ "," ++ rest, ra⟩ = entry ∧
      getClientIP ⟨entry, ra⟩ = entry)) ∧
    (':' ∉ ip.data →
      getClientIP ⟨"", ip ++ ":" ++ port⟩ = ip ∧
      getClientIP ⟨"", ip⟩ = ip) := by
  have hcomma : ("," : String) = String.mk [','] := rfl
  have hcolon : (":" : String) = String.mk [':'] := rfl
  constructor
  · intro he hc
    have hdata : (entry ++ "," ++ rest).data = entry.data ++ ',' :: rest.data := by
      rw [hcomma, data_append_sep]
    have hne : entry ++ "," ++ rest ≠ "" := by
      intro h0
      have h1 := congrArg String.data h0
      rw [hdata] at h1
      cases hd : entry.data <;> simp [hd] at h1
    constructor
    · rw [getClientIP, if_pos hne, goSplit, hdata, splitChar_append ',' _ _ hc]
      exact String.ext rfl
    · rw [getClientIP, if_pos he, goSplit, splitChar_of_not_mem ',' _ hc]
      exact String.ext rfl
  · intro hi
    constructor
    · have hdata : (ip ++ ":" ++ port).data = ip.data ++ ':' :: port.data := by
        rw [hcolon, data_append_sep]
      have hmem : ':' ∈ (ip ++ ":" ++ port).data := by
        rw [hdata]
        exact List.mem_append_right _ (List.mem_cons_self _ _)
      rw [getClientIP, if_neg (by simp), if_pos hmem, goSplit, hdata,
        splitChar_append ':' _ _ hi]
      exact String.ext rfl
    · rw [getClientIP, if_neg (by simp), if_neg hi]

/-- Claim C7 witness: the two examples from the specification. -/
theorem getClientIP_spec_witness :
    getClientIP ⟨"192.168.1.100", "10.0.0.1:12345"⟩ = "192.168.1.100" ∧
    getClientIP ⟨"", "192.168.1.100" ++ ":" ++ "12345"⟩ = "192.168.1.100" :=
  ⟨((getClientIP_spec "192.168.1.100" "" "" "" "10.0.0.1:12345").1
      (by decide) (by decide)).2,
   ((getClientIP_spec "" "" "192.168.1.100" "12345" "").2 (by decide)).1⟩

/-- `QueueItem` from `main.go`: one entry of the download queue (all fields
upstream-supplied display strings). -/
structure QueueItem where
  Filename : String
  Status : String
  SizeLeft : String
  Percentage : String
  TimeLeft : String
deriving DecidableEq, Repr

/-- `Queue` from `main.go`. -/
structure Queue where
  Status : String
  Speed : String
  SizeLeft : String
  TimeLeft : String
  Percentage : String
  Slots : List QueueItem
deriving DecidableEq, Repr

/-- `SabnzbdStatus` from `main.go`: the decoded upstream response. -/
structure SabnzbdStatus where
  Status : String
  Queue : Queue
deriving DecidableEq, Repr

/-- The upstream HTTP response as `fetchSabnzbdStatus` consumes it:
`resp.StatusCode`, `resp.Status`, and the body as the sequence of chunks the
stream delivers. -/
structure HttpResponse where
  StatusCode : Int
  Status : String
  Body : List String
deriving DecidableEq, Repr

/-- `io.ReadAll` on the body stream: the concatenation of all chunks. -/
def readAll (chunks : List String) : String :=
  String.mk (chunks.foldr (fun s acc => s.data ++ acc) [])

/-- `fetchSabnzbdStatus` from `main.go`, from the point where the upstream
response is in hand (URL building and the network call itself are modelled
separately / by the `resp` argument): any non-200 status is an error carrying
the code and the body is never consumed; otherwise in debug mode the body is
fully buffered (`io.ReadAll`) and re-wrapped as a single-chunk reader before
the JSON decode, which is the opaque `decode` parameter (`encoding/json`). -/
def fetchSabnzbdStatus (decode : String → Except String SabnzbdStatus)
    (config : Config) (resp : HttpResponse) : Except String SabnzbdStatus :=
  if resp.StatusCode ≠ 200 then
    Except.error ("API returned non-OK status: " ++ toString resp.StatusCode)
  else
    decode (readAll (if config.Debug then [readAll resp.Body] else resp.Body))

/-- Claim C5: a non-200 upstream status yields exactly the error carrying the
code (so no `SabnzbdStatus` result), and the outcome is unchanged under any
other body and any other decoder — the body is not parsed. -/
theorem fetch_non200_error (decode decode2 : String → Except String SabnzbdStatus)
    (config config2 : Config) (resp : HttpResponse) (body2 : List String)
    (h : resp.StatusCode ≠ 200) :
    fetchSabnzbdStatus decode config resp =
      Except.error ("API returned non-OK status: " ++ toString resp.StatusCode) ∧
    fetchSabnzbdStatus decode2 config2 { resp with Body := body2 } =
      fetchSabnzbdStatus decode config resp := by
  constructor <;> simp [fetchSabnzbdStatus, h]

/-- Claim C5 witness: an HTTP 500 response is rejected with the code in the
error message. -/
theorem fetch_non200_error_witness :
    fetchSabnzbdStatus (fun b => Except.error b) ⟨"u", "k", 5, false, false⟩
        ⟨500, "500 Internal Server Error", ["ignored"]⟩ =
      Except.error ("API returned non-OK status: " ++ toString (500 : Int)) :=
  (fetch_non200_error (fun b => Except.error b) (fun b => Except.error b)
      ⟨"u", "k", 5, false, false⟩ ⟨"u", "k", 5, false, false⟩
      ⟨500, "500 Internal Server Error", ["ignored"]⟩ [] (by decide)).1

/-- Claim C6: for the same response, the fetch outcome with `Debug := true`
equals the outcome with `Debug := false` — buffering and re-wrapping the body
feeds the decoder the identical content. -/
theorem fetch_debug_independent (decode : String → Except String SabnzbdStatus)
    (config : Config) (resp : HttpResponse) :
    fetchSabnzbdStatus decode { config with Debug := true } resp =
      fetchSabnzbdStatus decode { config with Debug := false } resp := by
  unfold fetchSabnzbdStatus
  split
  · rfl
  · simp [readAll]

/-- `strings.Contains(s, sub)` on character lists: a prefix match at some
position (`Contains(s, "") = true`, as in Go). -/
def containsSub (sub : List Char) : List Char → Bool
  | [] => sub.isEmpty
  | c :: rest => sub.isPrefixOf (c :: rest) || containsSub sub rest

/-- `strings.Contains` on strings. -/
def goContains (s sub : String) : Bool :=
  containsSub sub.data s.data

/-- `strings.Replace(s, pat, rep, 1)` on character lists: replace the first
occurrence of `pat`, leave the rest untouched (an empty `pat` matches at the
front, as in Go). -/
def replaceFirst : List Char → List Char → List Char → List Char
  | [], pat, rep => if pat.isPrefixOf [] then rep else []
  | c :: rest, pat, rep =>
    if pat.isPrefixOf (c :: rest) then rep ++ (c :: rest).drop pat.length
    else c :: replaceFirst rest pat rep

/-- `strings.Replace(s, pat, rep, 1)` on strings. -/
def goReplace1 (s pat rep : String) : String :=
  String.mk (replaceFirst s.data pat.data rep.data)

/-- The upstream request URL built by `fetchSabnzbdStatus`. -/
def buildRequestURL (config : Config) : String :=
  config.SabnzbdURL ++ "/api?output=json&apikey=" ++ config.SabnzbdAPIKey ++ "&mode=queue"

/-- The debug log line of `fetchSabnzbdStatus` that is meant to hide the API
key: `strings.Replace(url, config.SabnzbdAPIKey, "[REDACTED]", 1)` prefixed
with the message text. -/
def safeURLLogMessage (config : Config) : String :=
  "Requesting SABnzbd API: " ++
    goReplace1 (buildRequestURL config) config.SabnzbdAPIKey "[REDACTED]"

theorem isPrefixOf_refl_list (l : List Char) : l.isPrefixOf l = true := by
  induction l with
  | nil => rfl
  | cons c r ih => simp [List.isPrefixOf, ih]

theorem containsSub_append_right (sub t pre : List Char) (h : containsSub sub t = true) :
    containsSub sub (pre ++ t) = true := by
  induction pre with
  | nil => simpa using h
  | cons c r ih => simp [containsSub, ih]

theorem containsSub_append_self (sub pre : List Char) :
    containsSub sub (pre ++ sub) = true := by
  apply containsSub_append_right
  cases sub with
  | nil => rfl
  | cons c r => simp [containsSub, isPrefixOf_refl_list]

/-- `HandlerResult`: what one execution of the `/status` handler produces —
the HTTP status and body written to the client, and the log lines emitted. -/
structure HandlerResult where
  StatusCode : Int
  Body : String
  Logs : List String
deriving DecidableEq, Repr

/-- The body written by `http.Error(w, "Failed to fetch status", 500)`:
the message plus the newline `http.Error` appends. -/
def genericFailureBody : String := "Failed to fetch status\n"

/-- The `/status` handler from `main` (lines 232-244 of `main.go`), from the
point where the fetch outcome is in hand: on failure it logs the real error
and answers 500 with the generic body; on success it logs and renders the
`status.html` template (the opaque `render`).  The optional client-info log
lines do not depend on the fetch outcome and are omitted. -/
def statusHandler (_config : Config) (render : SabnzbdStatus → String)
    (fetchResult : Except String SabnzbdStatus) : HandlerResult :=
  match fetchResult with
  | Except.error e =>
    { StatusCode := 500, Body := genericFailureBody
      Logs := ["[INFO] Fetching SABnzbd status",
               "[ERROR] Failed to fetch status: " ++ e] }
  | Except.ok st =>
    { StatusCode := 200, Body := render st
      Logs := ["[INFO] Fetching SABnzbd status",
               "[INFO] SABnzbd status fetched successfully"] }

/-- Claim C8 counterexample: the generic body is the fixed string
`"Failed to fetch status\n"`, so a configuration whose API key is the literal
`"status"` makes the 500 body contain the API key. -/
theorem status_500_body_cex :
    (statusHandler ⟨"http://h", "status", 5, false, false⟩ (fun _ => "")
        (Except.error "boom")).StatusCode = 500 ∧
    goContains
      (statusHandler ⟨"http://h", "status", 5, false, false⟩ (fun _ => "")
        (Except.error "boom")).Body
      (Config.SabnzbdAPIKey ⟨"http://h", "status", 5, false, false⟩) = true := by
  exact ⟨rfl, by decide⟩

/-- Claim C8 (amended): on any fetch failure the handler answers 500 with the
constant body `"Failed to fetch status\n"` — the same for every configuration
and every error, so it carries no information from either — and the real
error text appears in the logged error line.  The body can textually contain
the key or the error only when that string is itself a substring of the
constant. -/
theorem status_500_fixed_body (config : Config) (render : SabnzbdStatus → String)
    (e : String) :
    statusHandler config render (Except.error e) =
      { StatusCode := 500, Body := genericFailureBody
        Logs := ["[INFO] Fetching SABnzbd status",
                 "[ERROR] Failed to fetch status: " ++ e] } ∧
    goContains ("[ERROR] Failed to fetch status: " ++ e) e = true := by
  refine ⟨rfl, ?_⟩
  rw [goContains, String.data_append]
  exact containsSub_append_self e.data _

/-- Claim C1 (refuted, code bug): `strings.Replace(url, apiKey, "[REDACTED]", 1)`
replaces only the first occurrence, so an API key that also occurs inside the
configured upstream URL survives in the "safe" debug log line verbatim. -/
theorem apiKey_not_redacted_cex :
    goContains
      (safeURLLogMessage ⟨"http://secret123.example", "secret123", 5, true, false⟩)
      "secret123" = true := by
  decide
